import Mathlib

/-!
Verification of the AWS Config event accessors
(`aws_lambda_powertools/utilities/data_classes/aws_config_event.py`) and of the
logger configuration propagation utility
(`aws_lambda_powertools/logging/utils.py`, modelled from its documented
behaviour), as a shallow embedding in Lean 4.

The event payload is a JSON object; `invoking_event` / `rule_parameters`
decode an embedded JSON string with Python's `json.loads`, which we model with
an executable JSON reader (`Json.parse`) faithful to the `json` module:
RFC 8259 grammar, no leading zeros in numbers, raw control characters
rejected inside strings, duplicate object keys resolved last-value-wins,
trailing content rejected.
-/

/-- A decoded JSON value.  Numbers are kept exact as `mantissa × 10^exponent`
(Python returns `int`/`float`; the claims never depend on numeric values). -/
inductive Json where
  | null
  | bool (b : Bool)
  | num (mantissa : Int) (exponent : Int)
  | str (s : String)
  | arr (items : List Json)
  | obj (entries : List (String × Json))

/-- Python `dict` lookup on an association list (keys are unique after
`buildDict`): first entry with the given key. -/
def lookupKey (d : List (String × Json)) (k : String) : Option Json :=
  match d with
  | [] => none
  | (k', v) :: rest => if k' = k then some v else lookupKey rest k

/-- Python `key in d.keys()`: membership test on the dict. -/
def containsKey (d : List (String × Json)) (k : String) : Bool :=
  match lookupKey d k with
  | some _ => true
  | none => false

/-- Python `dict` insertion: an existing key keeps its position and takes the
new value; a new key is appended. -/
def dictInsert (d : List (String × Json)) (k : String) (v : Json) :
    List (String × Json) :=
  match d with
  | [] => [(k, v)]
  | (k', v') :: rest =>
      if k' = k then (k', v) :: rest else (k', v') :: dictInsert rest k v

/-- Rebuild an object's entry list the way `json.loads` does: insert the
entries in order into a fresh dict, so a repeated key keeps its first position
and its last value. -/
def buildDict (entries : List (String × Json)) : List (String × Json) :=
  entries.foldl (fun d kv => dictInsert d kv.1 kv.2) []

/-! ## The embedded `json.loads` -/

def isJsonSpace (c : Char) : Bool :=
  c = ' ' || c = '\t' || c = '\n' || c = '\r'

def isDigitCh (c : Char) : Bool :=
  c.isDigit

def dropSpace (cs : List Char) : List Char :=
  cs.dropWhile isJsonSpace

def grabDigits (cs : List Char) : List Char × List Char :=
  cs.span isDigitCh

def digitsVal (ds : List Char) : Int :=
  (ds.foldl (fun a c => 10 * a + (c.toNat - 48)) 0 : Nat)

def hexDigit (c : Char) : Option Nat :=
  let n := c.toNat
  if 48 ≤ n ∧ n ≤ 57 then some (n - 48)
  else if 97 ≤ n ∧ n ≤ 102 then some (n - 87)
  else if 65 ≤ n ∧ n ≤ 70 then some (n - 55)
  else none

def simpleEscape (c : Char) : Option Char :=
  if c = '"' then some '"'
  else if c = '\\' then some '\\'
  else if c = '/' then some '/'
  else if c = 'b' then some (Char.ofNat 8)
  else if c = 'f' then some (Char.ofNat 12)
  else if c = 'n' then some '\n'
  else if c = 'r' then some '\r'
  else if c = 't' then some '\t'
  else none

/-- Scan a JSON string body after the opening quote.  `json.loads` (strict
mode, the default) rejects raw control characters below U+0020. -/
def scanString (acc : List Char) : List Char → Option (String × List Char)
  | '"' :: rest => some (String.mk acc.reverse, rest)
  | '\\' :: 'u' :: h1 :: h2 :: h3 :: h4 :: rest =>
      match hexDigit h1, hexDigit h2, hexDigit h3, hexDigit h4 with
      | some a, some b, some c, some d =>
          scanString (Char.ofNat (a * 4096 + b * 256 + c * 16 + d) :: acc) rest
      | _, _, _, _ => none
  | '\\' :: e :: rest =>
      match simpleEscape e with
      | some c => scanString (c :: acc) rest
      | none => none
  | c :: rest =>
      if c.toNat < 32 then none else scanString (c :: acc) rest
  | [] => none

/-- Scan the fractional part: either absent, or a dot followed by at least one
digit. -/
def scanFrac (cs : List Char) : Option (List Char × List Char) :=
  match cs with
  | '.' :: r =>
      let (ds, rest) := grabDigits r
      if ds.isEmpty then none else some (ds, rest)
  | _ => some ([], cs)

/-- Scan the exponent part: either absent, or `e`/`E`, an optional sign, and
at least one digit. -/
def scanExp (cs : List Char) : Option (Int × List Char) :=
  match cs with
  | c :: r =>
      if c = 'e' ∨ c = 'E' then
        let (negExp, r1) : Bool × List Char :=
          match r with
          | '+' :: t => (false, t)
          | '-' :: t => (true, t)
          | _ => (false, r)
        let (ds, r2) := grabDigits r1
        if ds.isEmpty then none
        else some ((if negExp then -digitsVal ds else digitsVal ds), r2)
      else some (0, cs)
  | [] => some (0, [])

/-- Scan a JSON number.  The integer part may not have a leading zero unless
it is exactly `0`, as in the `json` module's grammar. -/
def scanNumber (cs : List Char) : Option (Json × List Char) := do
  let (neg, cs1) : Bool × List Char :=
    match cs with
    | '-' :: r => (true, r)
    | _ => (false, cs)
  let (whole, cs2) := grabDigits cs1
  if whole.isEmpty then none
  else if 1 < whole.length && whole.headD ' ' = '0' then none
  else do
    let (frac, cs3) ← scanFrac cs2
    let (expo, cs4) ← scanExp cs3
    let mag : Int := digitsVal (whole ++ frac)
    some (Json.num (if neg then -mag else mag) (expo - (frac.length : Int)), cs4)

mutual

/-- Scan one JSON value, fuelled for termination. -/
def scanValue : Nat → List Char → Option (Json × List Char)
  | 0, _ => none
  | fuel + 1, cs =>
    match dropSpace cs with
    | 'n' :: 'u' :: 'l' :: 'l' :: r => some (Json.null, r)
    | 't' :: 'r' :: 'u' :: 'e' :: r => some (Json.bool true, r)
    | 'f' :: 'a' :: 'l' :: 's' :: 'e' :: r => some (Json.bool false, r)
    | '"' :: r =>
        match scanString [] r with
        | some (s, rest) => some (Json.str s, rest)
        | none => none
    | '[' :: r =>
        match dropSpace r with
        | ']' :: rest => some (Json.arr [], rest)
        | r' =>
            match scanItems fuel r' with
            | some (vs, rest) => some (Json.arr vs, rest)
            | none => none
    | '\x7b' :: r =>
        match dropSpace r with
        | '\x7d' :: rest => some (Json.obj [], rest)
        | r' =>
            match scanEntries fuel r' with
            | some (es, rest) => some (Json.obj (buildDict es), rest)
            | none => none
    | c :: r =>
        if c = '-' || isDigitCh c then scanNumber (c :: r) else none
    | [] => none

/-- Scan one or more comma-separated array items up to the closing bracket. -/
def scanItems : Nat → List Char → Option (List Json × List Char)
  | 0, _ => none
  | fuel + 1, cs =>
    match scanValue fuel cs with
    | none => none
    | some (v, r) =>
        match dropSpace r with
        | ',' :: r' =>
            match scanItems fuel r' with
            | some (vs, rest) => some (v :: vs, rest)
            | none => none
        | ']' :: rest => some ([v], rest)
        | _ => none

/-- Scan one or more comma-separated object members up to the closing brace. -/
def scanEntries : Nat → List Char → Option (List (String × Json) × List Char)
  | 0, _ => none
  | fuel + 1, cs =>
    match dropSpace cs with
    | '"' :: r =>
        match scanString [] r with
        | none => none
        | some (k, r1) =>
            match dropSpace r1 with
            | ':' :: r2 =>
                match scanValue fuel r2 with
                | none => none
                | some (v, r3) =>
                    match dropSpace r3 with
                    | ',' :: r4 =>
                        match scanEntries fuel r4 with
                        | some (es, rest) => some ((k, v) :: es, rest)
                        | none => none
                    | '\x7d' :: rest => some ([(k, v)], rest)
                    | _ => none
            | _ => none
    | _ => none

end

/-- The embedded `json.loads`: decode the whole string, rejecting trailing
content other than whitespace. -/
def Json.parse (s : String) : Option Json :=
  match scanValue (s.length + 2) s.toList with
  | some (v, rest) => if (dropSpace rest).isEmpty then some v else none
  | none => none

/-! ## The AWS Config event data classes -/

/-- The Python exceptions the accessors can raise: `KeyError` from a dict
lookup, `json.JSONDecodeError` from `json.loads` on an invalid document,
`TypeError` from `json.loads` on a non-string argument, and `AttributeError`
from calling `.keys()` on a non-dict. -/
inductive PyError where
  | keyError (key : String)
  | jsonDecodeError
  | typeError
  | attributeError

/-- Python `DictWrapper.__getitem__`: `self[key]` looks the key up in the wrapped
dict and raises `KeyError` when it is absent. -/
def dictGetItem (d : List (String × Json)) (k : String) : Except PyError Json :=
  match lookupKey d k with
  | some v => Except.ok v
  | none => Except.error (PyError.keyError k)

/-- Class `AWSConfigConfigurationChangeEvent`: wraps the decoded `invokingEvent`
dict of a configuration-change invocation. -/
structure AWSConfigConfigurationChangeEvent where
  data : List (String × Json)

/-- Class `AWSConfigOversizedConfigurationChangeEvent`: wraps the decoded
`invokingEvent` dict of an oversized configuration-change invocation. -/
structure AWSConfigOversizedConfigurationChangeEvent where
  data : List (String × Json)

/-- Class `AWSConfigPeriodicInvokingEvent`: wraps the decoded `invokingEvent` dict
of a periodic invocation. -/
structure AWSConfigPeriodicInvokingEvent where
  data : List (String × Json)

/-- Property `AWSConfigConfigurationChangeEvent.event`:
`return self["configurationItem"]`. -/
def AWSConfigConfigurationChangeEvent.event
    (e : AWSConfigConfigurationChangeEvent) : Except PyError Json :=
  dictGetItem e.data "configurationItem"

/-- Property `AWSConfigOversizedConfigurationChangeEvent.event`:
`return self["configurationItemSummary"]`. -/
def AWSConfigOversizedConfigurationChangeEvent.event
    (e : AWSConfigOversizedConfigurationChangeEvent) : Except PyError Json :=
  dictGetItem e.data "configurationItemSummary"

/-- Property `AWSConfigPeriodicInvokingEvent.event`: `return dict(self)`, the whole
wrapped mapping. -/
def AWSConfigPeriodicInvokingEvent.event
    (e : AWSConfigPeriodicInvokingEvent) : List (String × Json) :=
  e.data

/-- The union returned by `AWSConfigEvent.invoking_event`. -/
inductive InvokingEvent where
  | configurationChange (e : AWSConfigConfigurationChangeEvent)
  | oversized (e : AWSConfigOversizedConfigurationChangeEvent)
  | periodic (e : AWSConfigPeriodicInvokingEvent)

/-- Class `AWSConfigEvent`: wraps the raw invocation payload dict. -/
structure AWSConfigEvent where
  data : List (String × Json)

/-- Property `AWSConfigEvent.invoking_event`:
`invoking_event = json.loads(self["invokingEvent"])`, then dispatch on which
key the decoded dict contains — `configurationItem` first, then
`configurationItemSummary`, else the periodic wrapper.  `json.loads` raises
`TypeError` on a non-string argument and `JSONDecodeError` on an invalid
document; `.keys()` raises `AttributeError` when the decoded value is not a
dict. -/
def AWSConfigEvent.invoking_event (e : AWSConfigEvent) :
    Except PyError InvokingEvent :=
  match dictGetItem e.data "invokingEvent" with
  | Except.error err => Except.error err
  | Except.ok raw =>
    match raw with
    | Json.str s =>
      match Json.parse s with
      | none => Except.error PyError.jsonDecodeError
      | some decoded =>
        match decoded with
        | Json.obj kvs =>
          if containsKey kvs "configurationItem" then
            Except.ok (InvokingEvent.configurationChange ⟨kvs⟩)
          else if containsKey kvs "configurationItemSummary" then
            Except.ok (InvokingEvent.oversized ⟨kvs⟩)
          else
            Except.ok (InvokingEvent.periodic ⟨kvs⟩)
        | _ => Except.error PyError.attributeError
    | _ => Except.error PyError.typeError

/-- Property `AWSConfigEvent.rule_parameters`:
`return json.loads(self["ruleParameters"])`. -/
def AWSConfigEvent.rule_parameters (e : AWSConfigEvent) :
    Except PyError Json :=
  match dictGetItem e.data "ruleParameters" with
  | Except.error err => Except.error err
  | Except.ok raw =>
    match raw with
    | Json.str s =>
      match Json.parse s with
      | none => Except.error PyError.jsonDecodeError
      | some decoded => Except.ok decoded
    | _ => Except.error PyError.typeError

/-- Property `AWSConfigEvent.execution_role_arn`: `return self["executionRoleArn"]`. -/
def AWSConfigEvent.execution_role_arn (e : AWSConfigEvent) :
    Except PyError Json :=
  dictGetItem e.data "executionRoleArn"

/-- Property `AWSConfigEvent.config_rule_name`: `return self["configRuleName"]`. -/
def AWSConfigEvent.config_rule_name (e : AWSConfigEvent) :
    Except PyError Json :=
  dictGetItem e.data "configRuleName"

/-- Property `AWSConfigEvent.config_rule_id`: `return self["configRuleId"]`. -/
def AWSConfigEvent.config_rule_id (e : AWSConfigEvent) :
    Except PyError Json :=
  dictGetItem e.data "configRuleId"

/-- Property `AWSConfigEvent.config_rule_arn`: `return self["configRuleArn"]`. -/
def AWSConfigEvent.config_rule_arn (e : AWSConfigEvent) :
    Except PyError Json :=
  dictGetItem e.data "configRuleArn"

/-- Property `AWSConfigEvent.account_id`: `return self["accountId"]`. -/
def AWSConfigEvent.account_id (e : AWSConfigEvent) : Except PyError Json :=
  dictGetItem e.data "accountId"

/-- Property `AWSConfigEvent.version`: `return self["version"]`. -/
def AWSConfigEvent.version (e : AWSConfigEvent) : Except PyError Json :=
  dictGetItem e.data "version"

/-- Property `AWSConfigEvent.event_left_scope`: `return self["eventLeftScope"]`. -/
def AWSConfigEvent.event_left_scope (e : AWSConfigEvent) :
    Except PyError Json :=
  dictGetItem e.data "eventLeftScope"

/-- Property `AWSConfigEvent.result_token`: `return self["resultToken"]`. -/
def AWSConfigEvent.result_token (e : AWSConfigEvent) : Except PyError Json :=
  dictGetItem e.data "resultToken"

/-- Whether a decoded JSON value is a mapping from strings to strings, the
shape `rule_parameters` is annotated to return. -/
def Json.isStringMap : Json → Bool
  | Json.obj entries =>
      entries.all fun kv =>
        match kv.2 with
        | Json.str _ => true
        | _ => false
  | _ => false

/-! ## Repeated accessor calls with the payload dict as explicit state

Each Python property reads from the wrapped dict; to check that repeated
calls neither mutate the payload nor keep hidden state, the dict is threaded
explicitly through every step of a call and through call sequences. -/

/-- Operation `self[key]` with the dict threaded as state: a dict lookup returns the
value and leaves the dict unchanged. -/
def getItemState (d : List (String × Json)) (k : String) :
    Except PyError Json × List (String × Json) :=
  (dictGetItem d k, d)

/-- One call of the `invoking_event` property, statement by statement, with
the payload dict threaded as state. -/
def invoking_event_call (d : List (String × Json)) :
    Except PyError InvokingEvent × List (String × Json) :=
  match getItemState d "invokingEvent" with
  | (Except.error err, d1) => (Except.error err, d1)
  | (Except.ok raw, d1) =>
    match raw with
    | Json.str s =>
      match Json.parse s with
      | none => (Except.error PyError.jsonDecodeError, d1)
      | some decoded =>
        match decoded with
        | Json.obj kvs =>
          if containsKey kvs "configurationItem" then
            (Except.ok (InvokingEvent.configurationChange ⟨kvs⟩), d1)
          else if containsKey kvs "configurationItemSummary" then
            (Except.ok (InvokingEvent.oversized ⟨kvs⟩), d1)
          else
            (Except.ok (InvokingEvent.periodic ⟨kvs⟩), d1)
        | _ => (Except.error PyError.attributeError, d1)
    | _ => (Except.error PyError.typeError, d1)

/-- Runs `n` successive calls of `invoking_event`, each starting from the state
the previous call left behind. -/
def invoking_event_calls : Nat → List (String × Json) →
    List (Except PyError InvokingEvent) × List (String × Json)
  | 0, d => ([], d)
  | n + 1, d =>
    let (r, d1) := invoking_event_call d
    let (rs, d2) := invoking_event_calls n d1
    (r :: rs, d2)

/-- One call of the `rule_parameters` property with the payload dict threaded
as state. -/
def rule_parameters_call (d : List (String × Json)) :
    Except PyError Json × List (String × Json) :=
  match getItemState d "ruleParameters" with
  | (Except.error err, d1) => (Except.error err, d1)
  | (Except.ok raw, d1) =>
    match raw with
    | Json.str s =>
      match Json.parse s with
      | none => (Except.error PyError.jsonDecodeError, d1)
      | some decoded => (Except.ok decoded, d1)
    | _ => (Except.error PyError.typeError, d1)

/-- Runs `n` successive calls of `rule_parameters`. -/
def rule_parameters_calls : Nat → List (String × Json) →
    List (Except PyError Json) × List (String × Json)
  | 0, d => ([], d)
  | n + 1, d =>
    let (r, d1) := rule_parameters_call d
    let (rs, d2) := rule_parameters_calls n d1
    (r :: rs, d2)

/-! ## Logger configuration propagation

`aws_lambda_powertools/logging/utils.py` itself is not part of this excerpt;
only its functional tests are.  The utility is therefore modelled from the
spec's description of `copy_config_to_registered_loggers`. -/

/-- A logging handler, identified by the objects it references: the formatter
instance attached to it and the output stream it writes to. -/
structure Handler where
  formatterId : Nat
  streamId : Nat
deriving DecidableEq

/-- A shallow copy of a handler (`copy.copy`): a fresh handler object whose
fields are copied, so the formatter instance is shared. -/
def Handler.shallowCopy (h : Handler) : Handler :=
  { formatterId := h.formatterId, streamId := h.streamId }

/-- A registered logger: a name, a mutable severity level and a mutable
handler list. -/
structure PyLogger where
  name : String
  level : Nat
  handlers : List Handler
deriving DecidableEq

/-- Modelled from the spec: the candidate filter of
`copy_config_to_registered_loggers`.  A registered logger is reconfigured
when its name is in `include` (or `include` is absent), not in `exclude`,
not the source logger's own name, and not one of the library's reserved
logger names. -/
def isCandidate (nm srcName : String) (incl excl : Option (List String))
    (reserved : List String) : Bool :=
  (match incl with
   | some l => l.contains nm
   | none => true) &&
  !(match excl with
    | some l => l.contains nm
    | none => false) &&
  !(nm == srcName) &&
  !(reserved.contains nm)

/-- Modelled from the spec: reconfiguring one target logger — its handler
list is replaced by shallow copies of the source's handlers (a single one,
since the source is configured with exactly one handler) and its level is set
to the requested level. -/
def reconfigureLogger (sourceHandlers : List Handler) (newLevel : Nat)
    (lg : PyLogger) : PyLogger :=
  { lg with handlers := sourceHandlers.map Handler.shallowCopy,
            level := newLevel }

/-- Modelled from the spec: `copy_config_to_registered_loggers`
(`aws_lambda_powertools/logging/utils.py`, absent from this excerpt).  Every
registered logger passing the candidate filter has its handler list replaced
by a single shallow copy of the source's handler and its level set to
`log_level` when given, else to the source's level; every other registered
logger is left untouched. -/
def copy_config_to_registered_loggers (registry : List PyLogger)
    (source : PyLogger) (log_level : Option Nat)
    (excl incl : Option (List String)) (reserved : List String) :
    List PyLogger :=
  registry.map fun lg =>
    if isCandidate lg.name source.name incl excl reserved then
      reconfigureLogger source.handlers (log_level.getD source.level) lg
    else lg

/-- C1: for a payload whose `invokingEvent` string decodes to a mapping,
`invoking_event` checks `configurationItem` first, then
`configurationItemSummary`, then falls back: a mapping containing
`configurationItem` yields the configuration-change variant (even when
`configurationItemSummary` is also present), one containing only
`configurationItemSummary` yields the oversized variant, and one containing
neither yields the periodic variant, each wrapping the decoded mapping. -/
theorem invoking_event_dispatch_order (p : List (String × Json)) (s : String)
    (kvs : List (String × Json))
    (hv : lookupKey p "invokingEvent" = some (Json.str s))
    (hp : Json.parse s = some (Json.obj kvs)) :
    (containsKey kvs "configurationItem" = true →
      (AWSConfigEvent.mk p).invoking_event =
        Except.ok (InvokingEvent.configurationChange ⟨kvs⟩)) ∧
    (containsKey kvs "configurationItem" = false →
      containsKey kvs "configurationItemSummary" = true →
      (AWSConfigEvent.mk p).invoking_event =
        Except.ok (InvokingEvent.oversized ⟨kvs⟩)) ∧
    (containsKey kvs "configurationItem" = false →
      containsKey kvs "configurationItemSummary" = false →
      (AWSConfigEvent.mk p).invoking_event =
        Except.ok (InvokingEvent.periodic ⟨kvs⟩)) := by
  refine ⟨fun h1 => ?_, fun h1 h2 => ?_, fun h1 h2 => ?_⟩ <;>
    simp [AWSConfigEvent.invoking_event, dictGetItem, hv, hp, h1] <;>
    simp [h2]

/-- Closed instance of `invoking_event_dispatch_order` on a payload whose
decoded `invokingEvent` holds both discriminating keys. -/
theorem invoking_event_dispatch_order_witness :
    lookupKey [("invokingEvent", Json.str
        "\x7b\"configurationItem\": \x7b\x7d, \"configurationItemSummary\": \x7b\x7d\x7d")]
        "invokingEvent" = some (Json.str
        "\x7b\"configurationItem\": \x7b\x7d, \"configurationItemSummary\": \x7b\x7d\x7d") ∧
    Json.parse
        "\x7b\"configurationItem\": \x7b\x7d, \"configurationItemSummary\": \x7b\x7d\x7d" =
      some (Json.obj
        [("configurationItem", Json.obj []),
         ("configurationItemSummary", Json.obj [])]) ∧
    containsKey
        [("configurationItem", Json.obj []),
         ("configurationItemSummary", Json.obj [])] "configurationItem" = true ∧
    (AWSConfigEvent.mk [("invokingEvent", Json.str
        "\x7b\"configurationItem\": \x7b\x7d, \"configurationItemSummary\": \x7b\x7d\x7d")]).invoking_event =
      Except.ok (InvokingEvent.configurationChange
        ⟨[("configurationItem", Json.obj []),
          ("configurationItemSummary", Json.obj [])]⟩) :=
  by
  refine ⟨rfl, rfl, rfl, ?_⟩
  refine (invoking_event_dispatch_order _
    "\x7b\"configurationItem\": \x7b\x7d, \"configurationItemSummary\": \x7b\x7d\x7d"
    _ ?_ ?_).1 ?_ <;> rfl

/-- C2: the configuration-change variant's `event` returns the mapping stored
at `configurationItem`, the oversized variant's `event` the one at
`configurationItemSummary`, and the periodic variant's `event` the entire
decoded mapping; the two non-periodic variants raise `KeyError` when the
expected key is absent. -/
theorem variant_event_projections :
    (∀ (d : List (String × Json)) (v : Json),
      lookupKey d "configurationItem" = some v →
      (AWSConfigConfigurationChangeEvent.mk d).event = Except.ok v) ∧
    (∀ d : List (String × Json),
      lookupKey d "configurationItem" = none →
      (AWSConfigConfigurationChangeEvent.mk d).event =
        Except.error (PyError.keyError "configurationItem")) ∧
    (∀ (d : List (String × Json)) (v : Json),
      lookupKey d "configurationItemSummary" = some v →
      (AWSConfigOversizedConfigurationChangeEvent.mk d).event = Except.ok v) ∧
    (∀ d : List (String × Json),
      lookupKey d "configurationItemSummary" = none →
      (AWSConfigOversizedConfigurationChangeEvent.mk d).event =
        Except.error (PyError.keyError "configurationItemSummary")) ∧
    (∀ d : List (String × Json),
      (AWSConfigPeriodicInvokingEvent.mk d).event = d) := by
  refine ⟨fun d v h => ?_, fun d h => ?_, fun d v h => ?_, fun d h => ?_,
    fun d => rfl⟩ <;>
  simp [AWSConfigConfigurationChangeEvent.event,
    AWSConfigOversizedConfigurationChangeEvent.event, dictGetItem, h]

/-- Closed instance of `variant_event_projections`: present and absent keys
on both non-periodic variants, and a periodic wrapper. -/
theorem variant_event_projections_witness :
    lookupKey [("configurationItem", Json.null)] "configurationItem" =
      some Json.null ∧
    (AWSConfigConfigurationChangeEvent.mk
      [("configurationItem", Json.null)]).event = Except.ok Json.null ∧
    (AWSConfigOversizedConfigurationChangeEvent.mk []).event =
      Except.error (PyError.keyError "configurationItemSummary") ∧
    (AWSConfigPeriodicInvokingEvent.mk [("a", Json.bool true)]).event =
      [("a", Json.bool true)] := by
  refine ⟨rfl, ?_, ?_, ?_⟩
  · exact variant_event_projections.1 _ _ rfl
  · exact variant_event_projections.2.2.2.1 _ rfl
  · exact variant_event_projections.2.2.2.2 _

/-- Lookup `dictGetItem` raises `KeyError` exactly on an absent key and returns the
stored value untransformed otherwise. -/
theorem dictGetItem_cases (d : List (String × Json)) (k : String) :
    (dictGetItem d k = Except.error (PyError.keyError k) ↔
      lookupKey d k = none) ∧
    (∀ v, lookupKey d k = some v → dictGetItem d k = Except.ok v) := by
  unfold dictGetItem
  cases h : lookupKey d k <;> simp

/-- Property `invoking_event` raises `JSONDecodeError` exactly when the string stored
at `invokingEvent` is not valid JSON. -/
theorem invoking_event_decode_error (d : List (String × Json)) (s : String)
    (hv : lookupKey d "invokingEvent" = some (Json.str s)) :
    ((AWSConfigEvent.mk d).invoking_event =
        Except.error PyError.jsonDecodeError ↔ Json.parse s = none) := by
  unfold AWSConfigEvent.invoking_event dictGetItem
  simp only [hv]
  cases hps : Json.parse s with
  | none => simp
  | some j =>
    cases j <;> simp
    split_ifs <;> simp

/-- Property `rule_parameters` raises `JSONDecodeError` exactly when the string stored
at `ruleParameters` is not valid JSON. -/
theorem rule_parameters_decode_error (d : List (String × Json)) (s : String)
    (hv : lookupKey d "ruleParameters" = some (Json.str s)) :
    ((AWSConfigEvent.mk d).rule_parameters =
        Except.error PyError.jsonDecodeError ↔ Json.parse s = none) := by
  unfold AWSConfigEvent.rule_parameters dictGetItem
  simp only [hv]
  cases hps : Json.parse s <;> simp

/-- C6: each plain scalar accessor fails with a `KeyError` exactly when its
fixed key is absent from the payload and otherwise returns the stored value
untransformed; `invoking_event` and `rule_parameters` fail with a
`JSONDecodeError` exactly when the string at their key is not valid JSON. -/
theorem accessor_error_behaviour (d : List (String × Json)) :
    (((AWSConfigEvent.mk d).execution_role_arn =
        Except.error (PyError.keyError "executionRoleArn") ↔
        lookupKey d "executionRoleArn" = none) ∧
      ∀ v, lookupKey d "executionRoleArn" = some v →
        (AWSConfigEvent.mk d).execution_role_arn = Except.ok v) ∧
    (((AWSConfigEvent.mk d).config_rule_name =
        Except.error (PyError.keyError "configRuleName") ↔
        lookupKey d "configRuleName" = none) ∧
      ∀ v, lookupKey d "configRuleName" = some v →
        (AWSConfigEvent.mk d).config_rule_name = Except.ok v) ∧
    (((AWSConfigEvent.mk d).config_rule_id =
        Except.error (PyError.keyError "configRuleId") ↔
        lookupKey d "configRuleId" = none) ∧
      ∀ v, lookupKey d "configRuleId" = some v →
        (AWSConfigEvent.mk d).config_rule_id = Except.ok v) ∧
    (((AWSConfigEvent.mk d).config_rule_arn =
        Except.error (PyError.keyError "configRuleArn") ↔
        lookupKey d "configRuleArn" = none) ∧
      ∀ v, lookupKey d "configRuleArn" = some v →
        (AWSConfigEvent.mk d).config_rule_arn = Except.ok v) ∧
    (((AWSConfigEvent.mk d).account_id =
        Except.error (PyError.keyError "accountId") ↔
        lookupKey d "accountId" = none) ∧
      ∀ v, lookupKey d "accountId" = some v →
        (AWSConfigEvent.mk d).account_id = Except.ok v) ∧
    (((AWSConfigEvent.mk d).version =
        Except.error (PyError.keyError "version") ↔
        lookupKey d "version" = none) ∧
      ∀ v, lookupKey d "version" = some v →
        (AWSConfigEvent.mk d).version = Except.ok v) ∧
    (((AWSConfigEvent.mk d).event_left_scope =
        Except.error (PyError.keyError "eventLeftScope") ↔
        lookupKey d "eventLeftScope" = none) ∧
      ∀ v, lookupKey d "eventLeftScope" = some v →
        (AWSConfigEvent.mk d).event_left_scope = Except.ok v) ∧
    (((AWSConfigEvent.mk d).result_token =
        Except.error (PyError.keyError "resultToken") ↔
        lookupKey d "resultToken" = none) ∧
      ∀ v, lookupKey d "resultToken" = some v →
        (AWSConfigEvent.mk d).result_token = Except.ok v) ∧
    (∀ s, lookupKey d "invokingEvent" = some (Json.str s) →
      ((AWSConfigEvent.mk d).invoking_event =
          Except.error PyError.jsonDecodeError ↔ Json.parse s = none)) ∧
    (∀ s, lookupKey d "ruleParameters" = some (Json.str s) →
      ((AWSConfigEvent.mk d).rule_parameters =
          Except.error PyError.jsonDecodeError ↔ Json.parse s = none)) :=
  ⟨dictGetItem_cases d "executionRoleArn",
   dictGetItem_cases d "configRuleName",
   dictGetItem_cases d "configRuleId",
   dictGetItem_cases d "configRuleArn",
   dictGetItem_cases d "accountId",
   dictGetItem_cases d "version",
   dictGetItem_cases d "eventLeftScope",
   dictGetItem_cases d "resultToken",
   fun s hv => invoking_event_decode_error d s hv,
   fun s hv => rule_parameters_decode_error d s hv⟩

/-- Closed instance of `accessor_error_behaviour`: on a payload with only an
invalid-JSON `invokingEvent`, the `version` accessor raises `KeyError` and
`invoking_event` raises `JSONDecodeError`. -/
theorem accessor_error_behaviour_witness :
    lookupKey [("invokingEvent", Json.str "nope")] "version" = none ∧
    (AWSConfigEvent.mk [("invokingEvent", Json.str "nope")]).version =
      Except.error (PyError.keyError "version") ∧
    Json.parse "nope" = none ∧
    (AWSConfigEvent.mk [("invokingEvent", Json.str "nope")]).invoking_event =
      Except.error PyError.jsonDecodeError := by
  refine ⟨rfl, ?_, rfl, ?_⟩
  · exact (accessor_error_behaviour _).2.2.2.2.2.1.1.mpr rfl
  · exact ((accessor_error_behaviour
      [("invokingEvent", Json.str "nope")]).2.2.2.2.2.2.2.2.1 "nope" rfl).mpr rfl

/-- C7 counterexample: `"[]"` is a string that parses as JSON, yet
`invoking_event` raises `AttributeError` (`.keys()` on a list) instead of
returning one of the three variants. -/
theorem invoking_event_fails_on_json_array :
    (Json.parse "[]").isSome = true ∧
    (AWSConfigEvent.mk [("invokingEvent", Json.str "[]")]).invoking_event =
      Except.error PyError.attributeError :=
  ⟨rfl, rfl⟩

/-- C7 (amended): for every payload whose `invokingEvent` value is a string
that parses as a JSON mapping, `invoking_event` returns exactly one of the
three variants without failing, with the periodic variant as the fallback
when neither discriminating key is present. -/
theorem invoking_event_total_on_mapping (d : List (String × Json)) (s : String)
    (kvs : List (String × Json))
    (hv : lookupKey d "invokingEvent" = some (Json.str s))
    (hp : Json.parse s = some (Json.obj kvs)) :
    ((AWSConfigEvent.mk d).invoking_event =
        Except.ok (InvokingEvent.configurationChange ⟨kvs⟩) ∨
      (AWSConfigEvent.mk d).invoking_event =
        Except.ok (InvokingEvent.oversized ⟨kvs⟩) ∨
      (AWSConfigEvent.mk d).invoking_event =
        Except.ok (InvokingEvent.periodic ⟨kvs⟩)) ∧
    (containsKey kvs "configurationItem" = false →
      containsKey kvs "configurationItemSummary" = false →
      (AWSConfigEvent.mk d).invoking_event =
        Except.ok (InvokingEvent.periodic ⟨kvs⟩)) := by
  unfold AWSConfigEvent.invoking_event dictGetItem
  simp only [hv, hp]
  constructor
  · split_ifs <;> simp
  · intro h1 h2
    simp [h1, h2]

/-- Closed instance of `invoking_event_total_on_mapping` on a payload whose
`invokingEvent` decodes to the empty mapping. -/
theorem invoking_event_total_on_mapping_witness :
    lookupKey [("invokingEvent", Json.str "\x7b\x7d")] "invokingEvent" =
      some (Json.str "\x7b\x7d") ∧
    Json.parse "\x7b\x7d" = some (Json.obj []) ∧
    (AWSConfigEvent.mk [("invokingEvent", Json.str "\x7b\x7d")]).invoking_event =
      Except.ok (InvokingEvent.periodic ⟨[]⟩) := by
  refine ⟨rfl, rfl, ?_⟩
  refine (invoking_event_total_on_mapping _ "\x7b\x7d" _ ?_ ?_).2 ?_ ?_ <;> rfl

/-- C8 counterexample: with `ruleParameters` holding the valid JSON document
`"1"`, `rule_parameters` returns the decoded number, which is not a mapping
from strings to strings. -/
theorem rule_parameters_not_string_map :
    (AWSConfigEvent.mk [("ruleParameters", Json.str "1")]).rule_parameters =
      Except.ok (Json.num 1 0) ∧
    (Json.num 1 0).isStringMap = false :=
  ⟨rfl, rfl⟩

/-- C8 (amended): for every payload whose `ruleParameters` value is a valid
JSON string, `rule_parameters` returns the decoded JSON value, unvalidated. -/
theorem rule_parameters_returns_decoded (d : List (String × Json)) (s : String)
    (j : Json)
    (hv : lookupKey d "ruleParameters" = some (Json.str s))
    (hp : Json.parse s = some j) :
    (AWSConfigEvent.mk d).rule_parameters = Except.ok j := by
  unfold AWSConfigEvent.rule_parameters dictGetItem
  simp [hv, hp]

/-- Closed instance of `rule_parameters_returns_decoded` on a decoded
string-to-string mapping. -/
theorem rule_parameters_returns_decoded_witness :
    lookupKey [("ruleParameters", Json.str "\x7b\"a\": \"b\"\x7d")]
      "ruleParameters" = some (Json.str "\x7b\"a\": \"b\"\x7d") ∧
    Json.parse "\x7b\"a\": \"b\"\x7d" = some (Json.obj [("a", Json.str "b")]) ∧
    (Json.obj [("a", Json.str "b")]).isStringMap = true ∧
    (AWSConfigEvent.mk
        [("ruleParameters", Json.str "\x7b\"a\": \"b\"\x7d")]).rule_parameters =
      Except.ok (Json.obj [("a", Json.str "b")]) := by
  refine ⟨rfl, rfl, rfl, ?_⟩
  refine rule_parameters_returns_decoded _ "\x7b\"a\": \"b\"\x7d" _ ?_ ?_ <;> rfl

/-- C10: variant discrimination depends only on the presence of the two
discriminating keys in the decoded mapping, never on the values stored under
them: any stored value — `null` included — selects the same variant. -/
theorem invoking_event_ignores_values (d : List (String × Json)) (s : String)
    (kvs : List (String × Json)) (v : Json)
    (hv : lookupKey d "invokingEvent" = some (Json.str s))
    (hp : Json.parse s = some (Json.obj kvs)) :
    (lookupKey kvs "configurationItem" = some v →
      (AWSConfigEvent.mk d).invoking_event =
        Except.ok (InvokingEvent.configurationChange ⟨kvs⟩)) ∧
    (lookupKey kvs "configurationItem" = none →
      lookupKey kvs "configurationItemSummary" = some v →
      (AWSConfigEvent.mk d).invoking_event =
        Except.ok (InvokingEvent.oversized ⟨kvs⟩)) := by
  unfold AWSConfigEvent.invoking_event dictGetItem
  simp only [hv, hp]
  constructor
  · intro h
    simp [containsKey, h]
  · intro h1 h2
    simp [containsKey, h1, h2]

/-- Closed instance of `invoking_event_ignores_values`: `configurationItem`
mapped to `null` still selects the configuration-change variant. -/
theorem invoking_event_ignores_values_witness :
    lookupKey [("invokingEvent", Json.str "\x7b\"configurationItem\": null\x7d")]
      "invokingEvent" =
      some (Json.str "\x7b\"configurationItem\": null\x7d") ∧
    Json.parse "\x7b\"configurationItem\": null\x7d" =
      some (Json.obj [("configurationItem", Json.null)]) ∧
    lookupKey [("configurationItem", Json.null)] "configurationItem" =
      some Json.null ∧
    (AWSConfigEvent.mk
        [("invokingEvent",
          Json.str "\x7b\"configurationItem\": null\x7d")]).invoking_event =
      Except.ok (InvokingEvent.configurationChange
        ⟨[("configurationItem", Json.null)]⟩) := by
  refine ⟨rfl, rfl, rfl, ?_⟩
  refine (invoking_event_ignores_values _ "\x7b\"configurationItem\": null\x7d"
    _ Json.null ?_ ?_).1 ?_ <;> rfl

/-- A single state-threaded `invoking_event` call returns the pure property
value and leaves the payload dict exactly as it was. -/
theorem invoking_event_call_eq (d : List (String × Json)) :
    invoking_event_call d = ((AWSConfigEvent.mk d).invoking_event, d) := by
  cases hdg : dictGetItem d "invokingEvent" with
  | error e =>
    simp [invoking_event_call, getItemState, AWSConfigEvent.invoking_event, hdg]
  | ok raw =>
    cases raw <;>
      simp [invoking_event_call, getItemState, AWSConfigEvent.invoking_event,
        hdg]
    case str s =>
      cases hps : Json.parse s with
      | none => simp
      | some j =>
        cases j <;> simp
        split_ifs <;> rfl

/-- A single state-threaded `rule_parameters` call returns the pure property
value and leaves the payload dict exactly as it was. -/
theorem rule_parameters_call_eq (d : List (String × Json)) :
    rule_parameters_call d = ((AWSConfigEvent.mk d).rule_parameters, d) := by
  cases hdg : dictGetItem d "ruleParameters" with
  | error e =>
    simp [rule_parameters_call, getItemState, AWSConfigEvent.rule_parameters,
      hdg]
  | ok raw =>
    cases raw <;>
      simp [rule_parameters_call, getItemState, AWSConfigEvent.rule_parameters,
        hdg]
    case str s =>
      cases hps : Json.parse s with
      | none => simp
      | some j => simp

/-- C9: `invoking_event` and `rule_parameters` are deterministic pure
functions of the payload mapping — any number of successive calls, each
started from the state the previous call left, returns the same result every
time and leaves the payload unchanged, with no cached state anywhere. -/
theorem accessors_pure (d : List (String × Json)) (n : Nat) :
    invoking_event_calls n d =
      (List.replicate n (AWSConfigEvent.mk d).invoking_event, d) ∧
    rule_parameters_calls n d =
      (List.replicate n (AWSConfigEvent.mk d).rule_parameters, d) := by
  induction n with
  | zero => exact ⟨rfl, rfl⟩
  | succ n ih =>
    refine ⟨?_, ?_⟩
    · simp [invoking_event_calls, invoking_event_call_eq, ih.1,
        List.replicate_succ]
    · simp [rule_parameters_calls, rule_parameters_call_eq, ih.2,
        List.replicate_succ]

/-- Zipping a list with its image pairs every element with its image. -/
theorem zip_map_self {α β : Type} (f : α → β) (l : List α) (p : α × β)
    (hp : p ∈ l.zip (l.map f)) : p.2 = f p.1 := by
  have h : l.zip (l.map f) = l.map fun a => (a, f a) := by
    have := List.zip_map' (id : α → α) f l
    simpa using this
  rw [h] at hp
  obtain ⟨a, ha, rfl⟩ := List.mem_map.mp hp
  rfl

/-- C3 (spec-modelled): after propagation, every selected target has exactly
one handler — a shallow copy of the source's single handler, sharing the
source's formatter instance — its previous handlers all discarded, and its
level is `log_level` when given, else the source's level. -/
theorem copy_config_target_state (registry : List PyLogger)
    (source : PyLogger) (log_level : Option Nat)
    (excl incl : Option (List String)) (reserved : List String) (h : Handler)
    (hsrc : source.handlers = [h]) :
    ∀ lg' ∈ copy_config_to_registered_loggers registry source log_level excl
        incl reserved,
      isCandidate lg'.name source.name incl excl reserved = true →
      lg'.handlers = [Handler.shallowCopy h] ∧
      (Handler.shallowCopy h).formatterId = h.formatterId ∧
      lg'.level = log_level.getD source.level := by
  intro lg' hmem hcand
  unfold copy_config_to_registered_loggers at hmem
  obtain ⟨lg, hlg, rfl⟩ := List.mem_map.mp hmem
  by_cases hc : isCandidate lg.name source.name incl excl reserved = true
  · simp [hc, reconfigureLogger, hsrc, Handler.shallowCopy]
  · rw [if_neg hc] at hcand ⊢
    exact absurd hcand hc

/-- Closed instance of `copy_config_target_state`: one registered logger with
two stale handlers, reconfigured from a source with one handler and no level
override. -/
theorem copy_config_target_state_witness :
    (PyLogger.mk "service" 20 [Handler.mk 1 2]).handlers = [Handler.mk 1 2] ∧
    (PyLogger.mk "app" 20 [Handler.mk 1 2]).handlers =
      [Handler.shallowCopy (Handler.mk 1 2)] ∧
    (Handler.shallowCopy (Handler.mk 1 2)).formatterId =
      (Handler.mk 1 2).formatterId ∧
    (PyLogger.mk "app" 20 [Handler.mk 1 2]).level =
      (Option.getD none (PyLogger.mk "service" 20 [Handler.mk 1 2]).level) := by
  refine ⟨rfl, ?_⟩
  refine copy_config_target_state
    [PyLogger.mk "app" 10 [Handler.mk 7 8, Handler.mk 9 9]]
    (PyLogger.mk "service" 20 [Handler.mk 1 2]) none none none []
    (Handler.mk 1 2) rfl
    (PyLogger.mk "app" 20 [Handler.mk 1 2]) ?_ ?_
  · decide
  · decide

/-- C4 (spec-modelled): candidate selection — every registered logger is a
candidate when `include` is absent, else only those in `include`; names in
`exclude`, the source's own name and the reserved names are always dropped
(a name in both `include` and `exclude` is not reconfigured); `include`
names matching no registered logger are silently ignored, the registry's
names being preserved unchanged. -/
theorem copy_config_candidate_selection (registry : List PyLogger)
    (source : PyLogger) (log_level : Option Nat)
    (excl incl : Option (List String)) (reserved : List String) :
    ((copy_config_to_registered_loggers registry source log_level excl incl
        reserved).map PyLogger.name = registry.map PyLogger.name) ∧
    ∀ p ∈ registry.zip (copy_config_to_registered_loggers registry source
        log_level excl incl reserved),
      (∀ l, incl = some l → p.1.name ∉ l → p.2 = p.1) ∧
      (∀ l, excl = some l → p.1.name ∈ l → p.2 = p.1) ∧
      (p.1.name = source.name → p.2 = p.1) ∧
      (p.1.name ∈ reserved → p.2 = p.1) ∧
      ((incl = none ∨ ∃ l, incl = some l ∧ p.1.name ∈ l) →
        (∀ l, excl = some l → p.1.name ∉ l) →
        p.1.name ≠ source.name →
        p.1.name ∉ reserved →
        p.2 = reconfigureLogger source.handlers (log_level.getD source.level)
          p.1) := by
  constructor
  · unfold copy_config_to_registered_loggers
    rw [List.map_map]
    congr 1
    funext lg
    by_cases hc : isCandidate lg.name source.name incl excl reserved = true
    · simp [hc, reconfigureLogger]
    · simp [hc]
  · intro p hp
    have hstep := zip_map_self _ _ _ hp
    refine ⟨?_, ?_, ?_, ?_, ?_⟩
    · intro l hl hcon
      subst hl
      simp [hstep, isCandidate, hcon]
    · intro l hl hcon
      subst hl
      simp [hstep, isCandidate, hcon]
    · intro hname
      simp [hstep, isCandidate, hname]
    · intro hres
      simp [hstep, isCandidate, hres]
    · intro hincl hexcl hname hres
      have hcand : isCandidate p.1.name source.name incl excl reserved
          = true := by
        unfold isCandidate
        rcases hincl with hnone | ⟨l, hl, hcon⟩
        · subst hnone
          cases hexc : excl with
          | none => simp [hname, hres]
          | some le => simp [hname, hres, hexcl le hexc]
        · subst hl
          cases hexc : excl with
          | none => simp [hcon, hname, hres]
          | some le => simp [hcon, hname, hres, hexcl le hexc]
      simp [hstep, hcand]

/-- Closed instance of `copy_config_candidate_selection`: with
`include` holding log1, log2 and ghost, and `exclude` holding log1, the names are
preserved, `log1` stays untouched and `log2` is reconfigured; `ghost`
matches no registered logger and is ignored. -/
theorem copy_config_candidate_selection_witness :
    ((copy_config_to_registered_loggers
        [PyLogger.mk "log1" 0 [], PyLogger.mk "log2" 0 []]
        (PyLogger.mk "svc" 20 [Handler.mk 1 2]) none (some ["log1"])
        (some ["log1", "log2", "ghost"]) []).map PyLogger.name =
      [PyLogger.mk "log1" 0 [], PyLogger.mk "log2" 0 []].map PyLogger.name) ∧
    (PyLogger.mk "log1" 0 [], PyLogger.mk "log1" 0 []).2 =
      (PyLogger.mk "log1" 0 [], PyLogger.mk "log1" 0 []).1 ∧
    (PyLogger.mk "log2" 0 [], PyLogger.mk "log2" 20 [Handler.mk 1 2]).2 =
      reconfigureLogger [Handler.mk 1 2] 20 (PyLogger.mk "log2" 0 []) := by
  refine ⟨(copy_config_candidate_selection
      [PyLogger.mk "log1" 0 [], PyLogger.mk "log2" 0 []]
      (PyLogger.mk "svc" 20 [Handler.mk 1 2]) none (some ["log1"])
      (some ["log1", "log2", "ghost"]) []).1, ?_, ?_⟩
  · exact ((copy_config_candidate_selection
      [PyLogger.mk "log1" 0 [], PyLogger.mk "log2" 0 []]
      (PyLogger.mk "svc" 20 [Handler.mk 1 2]) none (some ["log1"])
      (some ["log1", "log2", "ghost"]) []).2 _ (by decide)).2.1 ["log1"] rfl
      (by decide)
  · exact ((copy_config_candidate_selection
      [PyLogger.mk "log1" 0 [], PyLogger.mk "log2" 0 []]
      (PyLogger.mk "svc" 20 [Handler.mk 1 2]) none (some ["log1"])
      (some ["log1", "log2", "ghost"]) []).2 _ (by decide)).2.2.2.2
      (Or.inr ⟨["log1", "log2", "ghost"], rfl, by decide⟩)
      (by intro l hl; cases hl; decide) (by decide) (by decide)

/-- C5 (spec-modelled): propagation is idempotent — invoking it twice with
identical arguments produces the same registry end state as invoking it once,
and after the second invocation each selected target still has exactly one
handler, with no accumulation. -/
theorem copy_config_idempotent (registry : List PyLogger) (source : PyLogger)
    (log_level : Option Nat) (excl incl : Option (List String))
    (reserved : List String) (h : Handler) :
    (copy_config_to_registered_loggers
        (copy_config_to_registered_loggers registry source log_level excl incl
          reserved) source log_level excl incl reserved =
      copy_config_to_registered_loggers registry source log_level excl incl
        reserved) ∧
    (source.handlers = [h] →
      ∀ lg' ∈ copy_config_to_registered_loggers
          (copy_config_to_registered_loggers registry source log_level excl
            incl reserved) source log_level excl incl reserved,
        isCandidate lg'.name source.name incl excl reserved = true →
        lg'.handlers.length = 1) := by
  have hidem : copy_config_to_registered_loggers
      (copy_config_to_registered_loggers registry source log_level excl incl
        reserved) source log_level excl incl reserved =
      copy_config_to_registered_loggers registry source log_level excl incl
        reserved := by
    unfold copy_config_to_registered_loggers
    rw [List.map_map]
    congr 1
    funext lg
    by_cases hc : isCandidate lg.name source.name incl excl reserved = true
    · simp [Function.comp, hc, reconfigureLogger]
    · simp [Function.comp, hc]
  refine ⟨hidem, ?_⟩
  intro hsrc lg' hmem hcand
  rw [hidem] at hmem
  unfold copy_config_to_registered_loggers at hmem
  obtain ⟨lg, hlg, rfl⟩ := List.mem_map.mp hmem
  by_cases hc : isCandidate lg.name source.name incl excl reserved = true
  · simp [hc, reconfigureLogger, hsrc]
  · rw [if_neg hc] at hcand ⊢
    exact absurd hcand hc

/-- Closed instance of `copy_config_idempotent`: double propagation over a
single-logger registry. -/
theorem copy_config_idempotent_witness :
    (copy_config_to_registered_loggers
        (copy_config_to_registered_loggers
          [PyLogger.mk "app" 0 [Handler.mk 5 6]]
          (PyLogger.mk "svc" 20 [Handler.mk 1 2]) none none none [])
        (PyLogger.mk "svc" 20 [Handler.mk 1 2]) none none none [] =
      copy_config_to_registered_loggers [PyLogger.mk "app" 0 [Handler.mk 5 6]]
        (PyLogger.mk "svc" 20 [Handler.mk 1 2]) none none none []) ∧
    (PyLogger.mk "svc" 20 [Handler.mk 1 2]).handlers = [Handler.mk 1 2] ∧
    (PyLogger.mk "app" 20 [Handler.mk 1 2]).handlers.length = 1 := by
  refine ⟨(copy_config_idempotent [PyLogger.mk "app" 0 [Handler.mk 5 6]]
    (PyLogger.mk "svc" 20 [Handler.mk 1 2]) none none none []
    (Handler.mk 1 2)).1, rfl, ?_⟩
  exact (copy_config_idempotent [PyLogger.mk "app" 0 [Handler.mk 5 6]]
    (PyLogger.mk "svc" 20 [Handler.mk 1 2]) none none none []
    (Handler.mk 1 2)).2 rfl (PyLogger.mk "app" 20 [Handler.mk 1 2])
    (by decide) (by decide)
